import Mathlib

/-!
Verification of the Prefix file organizer.

A shallow embedding of the core of `file-organizer.go`: the rule matcher
(`matchesPattern`), the file relocator (`moveFile` / `copyFile`), the batch
organizer (`organizeFiles`), the startup sequence of `main`, and the debounced
watch loop.  The filesystem and OS calls (`os.Stat`, `os.Rename`, `os.ReadDir`,
`os.MkdirAll`, ...) are modelled by an explicit filesystem state `FS` (a finite
association list from paths to file data plus a set of directories) together
with an oracle `SysEnv` of booleans deciding which OS calls succeed, so that
all failure paths of the Go code are representable.
-/

/-- Type `Destination` from `file-organizer.go`: one destination rule
`{ path, prefix, suffix }`.  (`prefix` is a Lean keyword, hence the field
names `prefixPat` / `suffixPat` for the Go fields `Prefix` / `Suffix`.) -/
structure Destination where
  path : String
  prefixPat : String
  suffixPat : String
deriving DecidableEq, Repr

/-- Type `Config` from `file-organizer.go`: the dump directory and the ordered
list of destination rules. -/
structure Config where
  dumpDirectory : String
  destinations : List Destination
deriving DecidableEq, Repr

/-- Go's `strings.HasPrefix s pre`: `pre` is an initial segment of `s`
(on the character sequence of the string). -/
def startsWithGo (s pre : String) : Bool :=
  pre.toList.isPrefixOf s.toList

/-- Go's `strings.HasSuffix s suf`: `suf` is a final segment of `s`
(on the character sequence of the string). -/
def endsWithGo (s suf : String) : Bool :=
  suf.toList.isSuffixOf s.toList

/-- Function `matchesPattern` from `file-organizer.go` (lines 88-100), translated
clause by clause; `strings.HasPrefix` / `strings.HasSuffix` become
`startsWithGo` / `endsWithGo`. -/
def matchesPattern (filename : String) (dest : Destination) : Bool :=
  if dest.prefixPat ≠ "" ∧ dest.suffixPat ≠ "" then
    startsWithGo filename dest.prefixPat && endsWithGo filename dest.suffixPat
  else if dest.prefixPat ≠ "" then
    startsWithGo filename dest.prefixPat
  else if dest.suffixPat ≠ "" then
    endsWithGo filename dest.suffixPat
  else
    false

/-- Whether a Go call returning `error` succeeded (`err == nil`). -/
def exceptIsOk : Except String Unit → Bool
  | Except.ok _ => true
  | Except.error _ => false

deriving instance DecidableEq for Except

/-! ## Filesystem model

The Go code manipulates the filesystem through `os.Stat`, `os.Rename`,
`os.MkdirAll`, `os.ReadDir`, `os.Open`, `os.Create`, `io.Copy`, `os.Remove`
and `os.Chmod`.  We model the filesystem as an association list from absolute
paths to file data (content bytes plus permission mode) together with the set
of existing directories, and model the OS calls as state transitions on it. -/

/-- The data of one regular file: its content (a byte sequence) and its
permission bits (`os.FileMode`). -/
structure FileData where
  content : List Nat
  mode : Nat
deriving DecidableEq, Repr

/-- A flat model of the filesystem: regular files keyed by path, plus the
set of directories that exist. -/
structure FS where
  files : List (String × FileData)
  dirs : List String
deriving DecidableEq, Repr

/-- The data stored at path `p`, if a regular file exists there. -/
def FS.lookupFile (fs : FS) (p : String) : Option FileData :=
  (fs.files.find? (fun e => e.1 == p)).map (fun e => e.2)

/-- Model of `os.Stat p` succeeding on a regular file: a file exists at `p`. -/
def FS.statFile (fs : FS) (p : String) : Bool :=
  (fs.lookupFile p).isSome

/-- Whether the directory `p` exists. -/
def FS.hasDir (fs : FS) (p : String) : Bool :=
  fs.dirs.contains p

/-- Create or truncate the regular file at `p` with data `d` (the effect of
`os.Create` followed by writes). -/
def FS.writeFile (fs : FS) (p : String) (d : FileData) : FS :=
  { fs with files := (p, d) :: fs.files.filter (fun e => !(e.1 == p)) }

/-- Model of `os.Remove p` on a regular file: delete the entry at `p`. -/
def FS.removeFile (fs : FS) (p : String) : FS :=
  { fs with files := fs.files.filter (fun e => !(e.1 == p)) }

/-- Model of `os.Chmod p m`: replace the permission bits of the file at `p`. -/
def FS.chmodFile (fs : FS) (p : String) (m : Nat) : FS :=
  match fs.lookupFile p with
  | none => fs
  | some d => fs.writeFile p ⟨d.content, m⟩

/-- Model of `os.Rename p q` on a regular file: move the entry at `p` to `q`. -/
def FS.renameFile (fs : FS) (p q : String) : FS :=
  match fs.lookupFile p with
  | none => fs
  | some d => (fs.removeFile p).writeFile q d

/-- Model of `os.MkdirAll p`: after it succeeds the directory `p` exists; an existing
directory is left alone. -/
def FS.mkdirAll (fs : FS) (p : String) : FS :=
  if fs.hasDir p then fs else { fs with dirs := p :: fs.dirs }

/-- Split a character sequence at every `/`, keeping empty components, as
`strings.Split` does. -/
def splitSlash : List Char → List (List Char)
  | [] => [[]]
  | c :: rest =>
    let r := splitSlash rest
    if c == '/' then [] :: r
    else (c :: r.headD []) :: r.tail

/-- Join components back with `/` separators. -/
def joinSlash : List (List Char) → List Char
  | [] => []
  | [x] => x
  | x :: rest => x ++ '/' :: joinSlash rest

/-- Model of `filepath.Dir`: the path up to the last `/` separator (`.` when the path
has no separator).  Path cleaning beyond that is not modelled; no claim
depends on it. -/
def dirName (p : String) : String :=
  let parts := splitSlash p.toList
  if parts.length ≤ 1 then "." else String.mk (joinSlash parts.dropLast)

/-- Model of `filepath.Base`: the component after the last `/` separator. -/
def baseName (p : String) : String :=
  String.mk ((splitSlash p.toList).getLastD p.toList)

/-- Model of `filepath.Join dir name` for a directory and a bare filename. -/
def pathJoin (dir name : String) : String :=
  dir ++ "/" ++ name

/-- Well-formedness of a filesystem state, as on a real filesystem: the
parent directory of every regular file exists as a directory. -/
def FS.WF (fs : FS) : Prop :=
  ∀ e ∈ fs.files, fs.hasDir (dirName e.1) = true

/-- The oracle deciding which OS calls succeed during one relocation; it
stands for the failure modes (permissions, cross-device rename, I/O errors)
the Go code distinguishes.  `partialLen` is how many bytes `io.Copy` manages
to stream before failing when `copyOk` is false. -/
structure SysEnv where
  mkdirOk : Bool
  renameOk : Bool
  openOk : Bool
  createOk : Bool
  copyOk : Bool
  partialLen : Nat
  removeOk : Bool
  chmodOk : Bool
deriving DecidableEq, Repr

/-- The mode bits `os.Create` gives a fresh file (0666 before the final
`os.Chmod` of `copyFile`). -/
def createMode : Nat := 438

/-- Function `copyFile` from `file-organizer.go` (lines 133-172): open the source for
reading, create the destination, stream all bytes with `io.Copy`, then copy
the source's permission bits onto the destination with `os.Chmod`.  A failed
`io.Copy` leaves a partially written destination file behind (`partialLen`
bytes), exactly as the Go code does. -/
def copyFile (env : SysEnv) (fs : FS) (sourcePath destPath : String) :
    FS × Except String Unit :=
  match env.openOk, fs.lookupFile sourcePath with
  | true, some src =>
    if env.createOk then
      let fs1 := fs.writeFile destPath ⟨[], createMode⟩
      if env.copyOk then
        let fs2 := fs1.writeFile destPath ⟨src.content, createMode⟩
        if fs2.statFile sourcePath then
          if env.chmodOk then (fs2.chmodFile destPath src.mode, Except.ok ())
          else (fs2, Except.error "chmod failed")
        else (fs2, Except.error "failed to stat source file")
      else
        (fs1.writeFile destPath ⟨src.content.take env.partialLen, createMode⟩,
         Except.error "copy failed")
    else (fs, Except.error "failed to create destination file")
  | _, _ => (fs, Except.error "failed to open source file")

/-- Function `moveFile` from `file-organizer.go` (lines 102-131): ensure the
destination's parent directory exists, refuse to overwrite an existing
destination file, try the atomic `os.Rename`, and otherwise fall back to
`copyFile` followed by `os.Remove` of the source.  `os.MkdirAll` succeeds
when the oracle allows it or the directory already exists; `os.Rename`
succeeds when the oracle allows it and the source file exists. -/
def moveFile (env : SysEnv) (fs : FS) (sourcePath destPath : String) :
    FS × Except String Unit :=
  let destDir := dirName destPath
  if env.mkdirOk || fs.hasDir destDir then
    let fs0 := fs.mkdirAll destDir
    if fs0.statFile destPath then
      (fs0, Except.error ("destination file already exists: " ++ destPath))
    else if env.renameOk && fs0.statFile sourcePath then
      (fs0.renameFile sourcePath destPath, Except.ok ())
    else
      match copyFile env fs0 sourcePath destPath with
      | (fs1, Except.error e) => (fs1, Except.error ("failed to copy file: " ++ e))
      | (fs1, Except.ok _) =>
        if env.removeOk && fs1.statFile sourcePath then
          (fs1.removeFile sourcePath, Except.ok ())
        else (fs1, Except.error "failed to remove source file")
  else (fs, Except.error "failed to create destination directory")

/-! ## Batch organizer -/

/-- One entry returned by `os.ReadDir`: a name and whether it is a
subdirectory. -/
structure DirEntry where
  name : String
  isDir : Bool
deriving DecidableEq, Repr

/-- Model of `os.ReadDir dir`: the immediate entries of `dir` (regular files and
subdirectories whose parent is `dir`), or failure when `dir` does not exist.
The sort order `os.ReadDir` guarantees is not modelled; no claim depends on
the order of the listing. -/
def FS.readDir (fs : FS) (dir : String) : Option (List DirEntry) :=
  if fs.hasDir dir then
    some
      ((fs.files.filterMap (fun e =>
          if dirName e.1 == dir then some ⟨baseName e.1, false⟩ else none))
       ++ (fs.dirs.filterMap (fun d =>
          if dirName d == dir then some ⟨baseName d, true⟩ else none)))
  else none

/-- The running state of one organize pass: the filesystem, the two
tallies `movedCount` / `skippedCount`, and the log lines written so far. -/
structure PassState where
  fs : FS
  movedCount : Nat
  skippedCount : Nat
  log : List String
deriving DecidableEq, Repr

/-- The summary line `organizeFiles` logs at the end of a pass. -/
def summaryLine (moved skipped : Nat) : String :=
  "Summary: " ++ toString moved ++ " files moved, " ++ toString skipped ++ " files skipped"

/-- The inner `for _, dest := range config.Destinations` loop of
`organizeFiles` (lines 193-209): on the first rule matching `filename`,
attempt `moveFile` to `dest.Path + "/" + filename` and `break` whether it
succeeded or failed.  Returns the updated state and the Go `moved` flag,
which is set only by a successful move. -/
def tryDestinations (env : SysEnv) (dumpDir filename : String) (st : PassState) :
    List Destination → PassState × Bool
  | [] => (st, false)
  | dest :: rest =>
    if matchesPattern filename dest then
      let sourcePath := pathJoin dumpDir filename
      let destPath := pathJoin dest.path filename
      let st1 := { st with log := st.log ++ ["Moving: " ++ sourcePath ++ " -> " ++ destPath] }
      match moveFile env st1.fs sourcePath destPath with
      | (fs1, Except.error e) =>
        ({ st1 with
            fs := fs1
            skippedCount := st1.skippedCount + 1
            log := st1.log ++ ["Error moving " ++ filename ++ ": " ++ e] }, false)
      | (fs1, Except.ok _) =>
        ({ st1 with
            fs := fs1
            movedCount := st1.movedCount + 1
            log := st1.log ++ ["Success: " ++ filename] }, true)
    else tryDestinations env dumpDir filename st rest

/-- The body of the outer `for _, file := range files` loop of
`organizeFiles` (lines 184-215) for one directory entry: subdirectories are
skipped outright; otherwise the destination rules are scanned and, when the
Go `moved` flag is still false after the scan (no rule matched, or the
matched relocation failed), the `if !moved` branch logs `No match found`
and increments `skippedCount`. -/
def stepFile (env : SysEnv) (config : Config) (st : PassState) (e : DirEntry) :
    PassState :=
  if e.isDir then st
  else
    match tryDestinations env config.dumpDirectory e.name st config.destinations with
    | (st1, moved) =>
      if moved then st1
      else
        { st1 with
            skippedCount := st1.skippedCount + 1
            log := st1.log ++ ["No match found for: " ++ e.name] }

/-- The outer loop of `organizeFiles` over the snapshot of directory
entries. -/
def organizePass (env : SysEnv) (config : Config) (st : PassState) :
    List DirEntry → PassState
  | [] => st
  | e :: es => organizePass env config (stepFile env config st e) es

/-- Function `organizeFiles` from `file-organizer.go` (lines 174-219): list the dump
directory (failure there is an error for the whole call), run the pass over
the snapshot of entries, log the summary line, and return `nil`.  The result
is the final filesystem, the log, and the Go return value (`error`, embedded
as `Except String Unit`). -/
def organizeFiles (env : SysEnv) (fs : FS) (config : Config) :
    FS × List String × Except String Unit :=
  match fs.readDir config.dumpDirectory with
  | none =>
    (fs, ["failed to read dump directory"],
     Except.error "failed to read dump directory")
  | some entries =>
    let st := organizePass env config ⟨fs, 0, 0, []⟩ entries
    (st.fs, st.log ++ [summaryLine st.movedCount st.skippedCount], Except.ok ())

/-- The `(movedCount, skippedCount)` tallies of one organize pass (the
values `organizeFiles` logs in its summary line); `(0, 0)` when the listing
fails. -/
def passCounts (env : SysEnv) (fs : FS) (config : Config) : Nat × Nat :=
  match fs.readDir config.dumpDirectory with
  | none => (0, 0)
  | some entries =>
    let st := organizePass env config ⟨fs, 0, 0, []⟩ entries
    (st.movedCount, st.skippedCount)

/-! ## Startup sequence of `main`

`main` (lines 223-297) performs a sequence of startup steps, each of which
may fail: open the log file, load the config, stat the dump directory,
create the fsnotify watcher, and finally subscribe the watcher to the dump
directory with `watcher.Add`.  A `log.Fatalf` aborts the process; a plain
`log.Println` records the error and execution continues to the blocking
wait for a shutdown signal. -/

/-- Which failures occur during startup. -/
structure StartupEnv where
  logFileOk : Bool
  configOk : Bool
  dumpDirExists : Bool
  watcherCreateOk : Bool
  watchAddOk : Bool
deriving DecidableEq, Repr

/-- The phase `main` ends up in after its startup sequence: aborted by a
`log.Fatal` with a message, or running (blocked on the signal channel with
the watch loop goroutine live). -/
inductive MainPhase where
  | aborted (msg : String)
  | running
deriving DecidableEq, Repr

/-- The startup control flow of `main` (lines 223-297), step by step in
source order.  Note that a failure of `watcher.Add` (lines 294-297) is
handled with `log.Println`, after which `main` falls through to the signal
wait: the process keeps running. -/
def mainStartup (env : StartupEnv) : MainPhase × List String :=
  if !env.logFileOk then (MainPhase.aborted "cannot open log file", [])
  else if !env.configOk then (MainPhase.aborted "Failed to load config", [])
  else if !env.dumpDirExists then (MainPhase.aborted "Dump directory does not exist", [])
  else if !env.watcherCreateOk then (MainPhase.aborted "Failed to create watcher", [])
  else if !env.watchAddOk then (MainPhase.running, ["watch add error"])
  else (MainPhase.running, [])

/-! ## Debounced watch loop

The goroutine of `main` (lines 261-292) consumes watcher events; on every
event it stops the pending `time.Timer` (if any) and re-arms
`time.AfterFunc(5*time.Second, ...)`, whose callback runs one
`organizeFiles` pass.  We model time as `Nat`, an execution as the list of
event arrival times, and the loop state as the deadline of the pending
timer (if armed) plus the number of organize passes already fired.  A
pending timer with deadline `d` has fired by the time an event at `t ≥ d`
is handled (its `timer.Stop()` is then a no-op); otherwise the `Stop`
cancels it.  After the last event, a still-armed timer eventually fires. -/

/-- The debounce delay of the program: `5*time.Second` (5 time units). -/
def debounceDelay : Nat := 5

/-- Process the event stream: `pending` is the deadline of the armed timer,
`fired` the number of organize passes run so far.  Each event counts the
pending pass if its deadline already elapsed, then (re-)arms the timer for
`t + delay`; at the end of the stream a still-pending timer fires once. -/
def watchLoop (delay : Nat) (pending : Option Nat) (fired : Nat) :
    List Nat → Nat
  | [] =>
    match pending with
    | none => fired
    | some _ => fired + 1
  | t :: rest =>
    match pending with
    | none => watchLoop delay (some (t + delay)) fired rest
    | some d =>
      if d ≤ t then watchLoop delay (some (t + delay)) (fired + 1) rest
      else watchLoop delay (some (t + delay)) fired rest

/-- The total number of organize passes the watch loop runs for a stream of
events arriving at the given times. -/
def watchRun (delay : Nat) (events : List Nat) : Nat :=
  watchLoop delay none 0 events

/-! ## Concrete fixtures used by witnesses and counterexamples -/

/-- An oracle under which every OS call succeeds. -/
def envAllOk : SysEnv := ⟨true, true, true, true, true, 0, true, true⟩

/-- A configuration with one rule: files whose name starts with `a` go to
`/dest`. -/
def cfgOne : Config := ⟨"/dump", [⟨"/dest", "a", ""⟩]⟩

/-- A dump directory holding one file `a1` that matches the rule of
`cfgOne` and can be moved. -/
def fsMoveOne : FS := ⟨[("/dump/a1", ⟨[1, 2], 420⟩)], ["/dump", "/dest"]⟩

/-- A dump directory holding one file `b1` that matches no rule of
`cfgOne`. -/
def fsNoMatch : FS := ⟨[("/dump/b1", ⟨[1], 420⟩)], ["/dump", "/dest"]⟩

/-- A dump directory holding one matching file `a1` whose destination
`/dest/a1` is already taken, so its relocation fails. -/
def fsDestTaken : FS :=
  ⟨[("/dump/a1", ⟨[1], 420⟩), ("/dest/a1", ⟨[9], 416⟩)], ["/dump", "/dest"]⟩



/-! ## Helper lemmas about the filesystem model -/

theorem find?_filter_ne (l : List (String × FileData)) (p q : String) (h : q ≠ p) :
    (l.filter (fun e => !(e.1 == p))).find? (fun e => e.1 == q) =
      l.find? (fun e => e.1 == q) := by
  induction l with
  | nil => rfl
  | cons a l ih =>
    by_cases hap : a.1 = p
    · have haq : (a.1 == q) = false :=
        beq_eq_false_iff_ne.mpr (fun hq => h (hq.symm.trans hap))
      have hpq : (p == q) = false :=
        beq_eq_false_iff_ne.mpr (fun hq => h hq.symm)
      simp [List.filter_cons, hap, List.find?_cons, haq, hpq, ih]
    · by_cases haq : a.1 = q
      · simp [List.filter_cons, hap, List.find?_cons, haq, h]
      · simp [List.filter_cons, hap, List.find?_cons, haq, h, ih]

theorem find?_filter_self (l : List (String × FileData)) (p : String) :
    (l.filter (fun e => !(e.1 == p))).find? (fun e => e.1 == p) = none := by
  induction l with
  | nil => rfl
  | cons a l ih =>
    by_cases hap : a.1 = p
    · simp [List.filter_cons, hap, ih]
    · simp [List.filter_cons, hap, List.find?_cons, ih]

theorem lookupFile_writeFile_self (fs : FS) (p : String) (d : FileData) :
    (fs.writeFile p d).lookupFile p = some d := by
  simp [FS.writeFile, FS.lookupFile, List.find?_cons]

theorem lookupFile_writeFile_ne (fs : FS) (p q : String) (d : FileData) (h : q ≠ p) :
    (fs.writeFile p d).lookupFile q = fs.lookupFile q := by
  have hpq : (p == q) = false := by
    simp only [beq_eq_false_iff_ne, ne_eq]
    intro hq
    exact h hq.symm
  simp [FS.writeFile, FS.lookupFile, List.find?_cons, hpq, find?_filter_ne fs.files p q h]

theorem lookupFile_removeFile_self (fs : FS) (p : String) :
    (fs.removeFile p).lookupFile p = none := by
  simp [FS.removeFile, FS.lookupFile, find?_filter_self fs.files p]

theorem lookupFile_removeFile_ne (fs : FS) (p q : String) (h : q ≠ p) :
    (fs.removeFile p).lookupFile q = fs.lookupFile q := by
  simp [FS.removeFile, FS.lookupFile, find?_filter_ne fs.files p q h]

theorem lookupFile_mkdirAll (fs : FS) (p q : String) :
    (fs.mkdirAll p).lookupFile q = fs.lookupFile q := by
  unfold FS.mkdirAll
  split <;> rfl

theorem statFile_mkdirAll (fs : FS) (p q : String) :
    (fs.mkdirAll p).statFile q = fs.statFile q := by
  simp [FS.statFile, lookupFile_mkdirAll]

/-! ## C1: the rule matcher -/

/-- C1: for every filename `f` and destination rule `d`, `matchesPattern f d`
is true if and only if every non-empty condition of `d` holds (prefix-of
when the prefix is non-empty, suffix-of when the suffix is non-empty) and at
least one of the two is non-empty — so a rule with both fields empty matches
no filename. -/
theorem matchesPattern_iff (f : String) (d : Destination) :
    matchesPattern f d = true ↔
      ((d.prefixPat ≠ "" ∨ d.suffixPat ≠ "") ∧
       (d.prefixPat ≠ "" → startsWithGo f d.prefixPat = true) ∧
       (d.suffixPat ≠ "" → endsWithGo f d.suffixPat = true)) := by
  by_cases hp : d.prefixPat = "" <;> by_cases hs : d.suffixPat = "" <;>
    simp [matchesPattern, hp, hs]

/-! ## C10: overlapping prefix and suffix regions -/

/-- C10: when a rule has both fields non-empty, `matchesPattern` is true
whenever the filename starts with the prefix and ends with the suffix; the
two conditions are checked independently, so the matched regions may
overlap inside the filename. -/
theorem matchesPattern_overlap (f : String) (d : Destination)
    (hp : d.prefixPat ≠ "") (hs : d.suffixPat ≠ "")
    (h1 : startsWithGo f d.prefixPat = true)
    (h2 : endsWithGo f d.suffixPat = true) :
    matchesPattern f d = true := by
  simp [matchesPattern, hp, hs, h1, h2]

/-- Witness for C10 at the overlapping instance of the claim: filename
`aba` against prefix `ab` and suffix `ba` (the regions share the middle
character). -/
theorem matchesPattern_overlap_witness :
    startsWithGo "aba" "ab" = true ∧ endsWithGo "aba" "ba" = true ∧
      matchesPattern "aba" ⟨"/x", "ab", "ba"⟩ = true :=
  ⟨by decide, by decide,
   matchesPattern_overlap "aba" ⟨"/x", "ab", "ba"⟩ (by decide) (by decide)
     (by decide) (by decide)⟩

/-! ## C3: the no-overwrite invariant of the relocator -/

instance (fs : FS) : Decidable (FS.WF fs) :=
  inferInstanceAs (Decidable (∀ e ∈ fs.files, fs.hasDir (dirName e.1) = true))

/-- C3: on any call of `moveFile` where a regular file already exists at
`destPath` (on a well-formed filesystem, where the parent directory of an
existing file exists, so `os.MkdirAll` succeeds), the relocator aborts with
the `destination file already exists` error and the filesystem is returned
unchanged: neither the source file nor the pre-existing destination file is
mutated. -/
theorem moveFile_alreadyExists (env : SysEnv) (fs : FS) (src dst : String)
    (hwf : fs.WF) (hex : fs.statFile dst = true) :
    moveFile env fs src dst =
      (fs, Except.error ("destination file already exists: " ++ dst)) := by
  obtain ⟨d, hd⟩ : ∃ d, fs.lookupFile dst = some d := by
    unfold FS.statFile at hex
    exact Option.isSome_iff_exists.mp hex
  have hmem : ∃ e ∈ fs.files, e.1 = dst := by
    unfold FS.lookupFile at hd
    cases hfind : fs.files.find? (fun e => e.1 == dst) with
    | none => rw [hfind] at hd; simp at hd
    | some e =>
      refine ⟨e, List.mem_of_find?_eq_some hfind, ?_⟩
      have := List.find?_some hfind
      simpa using this
  obtain ⟨e, he, hedst⟩ := hmem
  have hdir : fs.hasDir (dirName dst) = true := hedst ▸ hwf e he
  have hmk : (fs.mkdirAll (dirName dst)) = fs := by
    unfold FS.mkdirAll
    rw [hdir]
    simp
  unfold moveFile
  simp only [hdir, Bool.or_true, if_true, hmk, hex]

/-- Witness for C3: a destination `/dest/a1` that is already occupied on a
concrete well-formed filesystem; the relocation aborts and the filesystem
is untouched. -/
theorem moveFile_alreadyExists_witness :
    fsDestTaken.WF ∧ fsDestTaken.statFile "/dest/a1" = true ∧
      moveFile envAllOk fsDestTaken "/dump/a1" "/dest/a1" =
        (fsDestTaken, Except.error ("destination file already exists: " ++ "/dest/a1")) :=
  ⟨by decide, by decide,
   moveFile_alreadyExists envAllOk fsDestTaken "/dump/a1" "/dest/a1" (by decide) (by decide)⟩

/-! ## C4: the copy-then-remove fallback -/

theorem copyFile_ok (env : SysEnv) (g : FS) (src dst : String) (data : FileData)
    (hop : env.openOk = true) (hcr : env.createOk = true) (hcp : env.copyOk = true)
    (hch : env.chmodOk = true) (hsrc : g.lookupFile src = some data) (hne : src ≠ dst) :
    copyFile env g src dst =
      (((g.writeFile dst ⟨[], createMode⟩).writeFile dst
          ⟨data.content, createMode⟩).writeFile dst ⟨data.content, data.mode⟩,
       Except.ok ()) := by
  have h2src : ((g.writeFile dst ⟨[], createMode⟩).writeFile dst
      ⟨data.content, createMode⟩).lookupFile src = some data := by
    rw [lookupFile_writeFile_ne _ _ _ _ hne, lookupFile_writeFile_ne _ _ _ _ hne]
    exact hsrc
  have h2stat : ((g.writeFile dst ⟨[], createMode⟩).writeFile dst
      ⟨data.content, createMode⟩).statFile src = true := by
    unfold FS.statFile
    rw [h2src]
    rfl
  have h2dst : ((g.writeFile dst ⟨[], createMode⟩).writeFile dst
      ⟨data.content, createMode⟩).lookupFile dst = some ⟨data.content, createMode⟩ :=
    lookupFile_writeFile_self _ _ _
  unfold copyFile
  rw [hop, hsrc]
  simp only [hcr, if_true, hcp, h2stat, hch, FS.chmodFile, h2dst]

/-- C4: when the atomic rename is unavailable (`renameOk = false`) and every
step of the fallback succeeds, `moveFile` takes the copy-then-remove path
and succeeds; afterwards the destination file holds exactly the original
source bytes, carries the source's permission bits, and the source file no
longer exists. -/
theorem moveFile_fallback (env : SysEnv) (fs : FS) (src dst : String) (data : FileData)
    (hrn : env.renameOk = false) (hmk : env.mkdirOk = true)
    (hop : env.openOk = true) (hcr : env.createOk = true) (hcp : env.copyOk = true)
    (hrm : env.removeOk = true) (hch : env.chmodOk = true)
    (hsrc : fs.lookupFile src = some data) (hdst : fs.statFile dst = false) :
    (moveFile env fs src dst).2 = Except.ok () ∧
      (moveFile env fs src dst).1.lookupFile dst = some ⟨data.content, data.mode⟩ ∧
      (moveFile env fs src dst).1.statFile src = false := by
  have hne : src ≠ dst := by
    intro h
    rw [h] at hsrc
    unfold FS.statFile at hdst
    rw [hsrc] at hdst
    simp at hdst
  have hne' : dst ≠ src := fun h => hne h.symm
  have h0src : (fs.mkdirAll (dirName dst)).lookupFile src = some data := by
    rw [lookupFile_mkdirAll]
    exact hsrc
  have h0dst : (fs.mkdirAll (dirName dst)).statFile dst = false := by
    rw [statFile_mkdirAll]
    exact hdst
  have hcopy := copyFile_ok env (fs.mkdirAll (dirName dst)) src dst data
    hop hcr hcp hch h0src hne
  have h3src : ((((fs.mkdirAll (dirName dst)).writeFile dst ⟨[], createMode⟩).writeFile dst
      ⟨data.content, createMode⟩).writeFile dst ⟨data.content, data.mode⟩).statFile src
      = true := by
    unfold FS.statFile
    rw [lookupFile_writeFile_ne _ _ _ _ hne, lookupFile_writeFile_ne _ _ _ _ hne,
      lookupFile_writeFile_ne _ _ _ _ hne, h0src]
    rfl
  have hmove : moveFile env fs src dst =
      (((((fs.mkdirAll (dirName dst)).writeFile dst ⟨[], createMode⟩).writeFile dst
          ⟨data.content, createMode⟩).writeFile dst ⟨data.content, data.mode⟩).removeFile src,
       Except.ok ()) := by
    unfold moveFile
    simp only [hmk, Bool.true_or, if_true, h0dst, hrn, Bool.false_and, Bool.false_eq_true,
      if_false, hcopy, hrm, Bool.true_and, h3src]
  refine ⟨by rw [hmove], ?_, ?_⟩
  · rw [hmove]
    show (FS.removeFile _ src).lookupFile dst = _
    rw [lookupFile_removeFile_ne _ _ _ hne', lookupFile_writeFile_self]
  · rw [hmove]
    show (FS.removeFile _ src).statFile src = false
    unfold FS.statFile
    rw [lookupFile_removeFile_self]
    rfl

/-- Witness for C4: moving `/dump/a1` (bytes `[1, 2]`, mode 420) to
`/dest/a1` with the rename unavailable; the fallback leaves an identical
file with the same mode at the destination and removes the source. -/
theorem moveFile_fallback_witness :
    (SysEnv.renameOk ⟨true, false, true, true, true, 0, true, true⟩ = false) ∧
      fsMoveOne.lookupFile "/dump/a1" = some ⟨[1, 2], 420⟩ ∧
      fsMoveOne.statFile "/dest/a1" = false ∧
      (moveFile ⟨true, false, true, true, true, 0, true, true⟩ fsMoveOne
          "/dump/a1" "/dest/a1").2 = Except.ok () ∧
      (moveFile ⟨true, false, true, true, true, 0, true, true⟩ fsMoveOne
          "/dump/a1" "/dest/a1").1.lookupFile "/dest/a1" = some ⟨[1, 2], 420⟩ ∧
      (moveFile ⟨true, false, true, true, true, 0, true, true⟩ fsMoveOne
          "/dump/a1" "/dest/a1").1.statFile "/dump/a1" = false :=
  ⟨by decide, by decide, by decide,
   moveFile_fallback ⟨true, false, true, true, true, 0, true, true⟩ fsMoveOne
     "/dump/a1" "/dest/a1" ⟨[1, 2], 420⟩ (by decide) (by decide) (by decide)
     (by decide) (by decide) (by decide) (by decide) (by decide) (by decide)⟩

/-! ## C2: first match wins, no fallback to later rules -/

theorem tryDestinations_skip (env : SysEnv) (dump f : String) (st : PassState)
    (ds1 ds2 : List Destination)
    (h1 : ∀ r ∈ ds1, matchesPattern f r = false) :
    tryDestinations env dump f st (ds1 ++ ds2) = tryDestinations env dump f st ds2 := by
  induction ds1 with
  | nil => rfl
  | cons r rs ih =>
    have hr : matchesPattern f r = false := h1 r (List.mem_cons_self r rs)
    have hrest : ∀ x ∈ rs, matchesPattern f x = false := fun x hx =>
      h1 x (List.mem_cons_of_mem r hx)
    simp only [List.cons_append, tryDestinations, hr, Bool.false_eq_true, if_false]
    exact ih hrest

/-- C2: when the rules before `d` all fail to match `f` and `d` matches,
scanning the whole rule list behaves exactly like scanning `[d]` alone —
the rules after `d` are never consulted, whether the relocation succeeds or
fails — and the single relocation performed is `moveFile` from the dump
directory to `d.path + "/" + f`, whose success is what sets the Go `moved`
flag. -/
theorem organize_firstMatchWins (env : SysEnv) (dump f : String) (st : PassState)
    (ds1 ds2 : List Destination) (d : Destination)
    (h1 : ∀ r ∈ ds1, matchesPattern f r = false)
    (h2 : matchesPattern f d = true) :
    tryDestinations env dump f st (ds1 ++ d :: ds2) =
        tryDestinations env dump f st [d] ∧
      (tryDestinations env dump f st [d]).1.fs =
        (moveFile env st.fs (pathJoin dump f) (pathJoin d.path f)).1 ∧
      (tryDestinations env dump f st [d]).2 =
        exceptIsOk (moveFile env st.fs (pathJoin dump f) (pathJoin d.path f)).2 := by
  refine ⟨?_, ?_, ?_⟩
  · rw [tryDestinations_skip env dump f st ds1 (d :: ds2) h1]
    simp only [tryDestinations, h2, if_true]
  · simp only [tryDestinations, h2, if_true]
    cases hmv : moveFile env st.fs (pathJoin dump f) (pathJoin d.path f) with
    | mk fs1 r => cases r <;> simp [hmv]
  · simp only [tryDestinations, h2, if_true]
    cases hmv : moveFile env st.fs (pathJoin dump f) (pathJoin d.path f) with
    | mk fs1 r => cases r <;> simp [hmv, exceptIsOk]

/-- Witness for C2 at a concrete overlap: `a1` does not match the first
rule, matches the second, and the third (also matching) rule is never
consulted. -/
theorem organize_firstMatchWins_witness :
    (∀ r ∈ [(⟨"/z", "zz", ""⟩ : Destination)], matchesPattern "a1" r = false) ∧
      matchesPattern "a1" ⟨"/dest", "a", ""⟩ = true ∧
      (tryDestinations envAllOk "/dump" "a1" ⟨fsMoveOne, 0, 0, []⟩
          ([⟨"/z", "zz", ""⟩] ++ ⟨"/dest", "a", ""⟩ :: [⟨"/csv", "", "1"⟩]) =
        tryDestinations envAllOk "/dump" "a1" ⟨fsMoveOne, 0, 0, []⟩ [⟨"/dest", "a", ""⟩] ∧
      (tryDestinations envAllOk "/dump" "a1" ⟨fsMoveOne, 0, 0, []⟩ [⟨"/dest", "a", ""⟩]).1.fs =
        (moveFile envAllOk fsMoveOne (pathJoin "/dump" "a1") (pathJoin "/dest" "a1")).1 ∧
      (tryDestinations envAllOk "/dump" "a1" ⟨fsMoveOne, 0, 0, []⟩ [⟨"/dest", "a", ""⟩]).2 =
        exceptIsOk (moveFile envAllOk fsMoveOne (pathJoin "/dump" "a1") (pathJoin "/dest" "a1")).2) :=
  ⟨by decide, by decide,
   organize_firstMatchWins envAllOk "/dump" "a1" ⟨fsMoveOne, 0, 0, []⟩
     [⟨"/z", "zz", ""⟩] [⟨"/csv", "", "1"⟩] ⟨"/dest", "a", ""⟩ (by decide) (by decide)⟩

/-! ## C6: per-file errors never abort the pass; a listing failure does -/

/-- C6: (a) when listing the dump directory fails, the whole `organizeFiles`
call returns an error; (b) when the listing succeeds, `organizeFiles`
returns `nil` whatever happens to the individual files, so a per-file
relocation error never aborts the pass; (c) a file whose first matching
rule's relocation fails is tallied under `skippedCount` (twice, by the
error branch and then the still-unset `moved` flag) and never under
`movedCount`. -/
theorem organizeFiles_errorPolicy (env : SysEnv) (fs : FS) (config : Config) :
    (fs.hasDir config.dumpDirectory = false →
      (organizeFiles env fs config).2.2 =
        Except.error "failed to read dump directory") ∧
    (fs.hasDir config.dumpDirectory = true →
      (organizeFiles env fs config).2.2 = Except.ok ()) ∧
    (∀ (st : PassState) (e : DirEntry) (ds1 ds2 : List Destination) (d : Destination)
        (err : String),
      e.isDir = false →
      (∀ r ∈ ds1, matchesPattern e.name r = false) →
      matchesPattern e.name d = true →
      config.destinations = ds1 ++ d :: ds2 →
      (moveFile env st.fs (pathJoin config.dumpDirectory e.name)
          (pathJoin d.path e.name)).2 = Except.error err →
      (stepFile env config st e).movedCount = st.movedCount ∧
        (stepFile env config st e).skippedCount = st.skippedCount + 2) := by
  refine ⟨?_, ?_, ?_⟩
  · intro h
    unfold organizeFiles FS.readDir
    rw [h]
    simp
  · intro h
    unfold organizeFiles FS.readDir
    rw [h]
    simp
  · intro st e ds1 ds2 d err hdir h1 h2 hds hmv
    unfold stepFile
    rw [hdir, hds]
    simp only [Bool.false_eq_true, if_false]
    rw [tryDestinations_skip env config.dumpDirectory e.name st ds1 (d :: ds2) h1]
    simp only [tryDestinations, h2, if_true]
    cases hmv2 : moveFile env st.fs (pathJoin config.dumpDirectory e.name)
        (pathJoin d.path e.name) with
    | mk fs1 r =>
      cases r with
      | error e2 => simp
      | ok u => rw [hmv2] at hmv; simp at hmv

/-- Witness for C6: an empty filesystem makes the listing fail for the
whole call; on `fsDestTaken` the listing succeeds, the pass returns `nil`,
and the file whose relocation fails is tallied only under `skippedCount`. -/
theorem organizeFiles_errorPolicy_witness :
    (organizeFiles envAllOk ⟨[], []⟩ cfgOne).2.2 =
        Except.error "failed to read dump directory" ∧
      (organizeFiles envAllOk fsDestTaken cfgOne).2.2 = Except.ok () ∧
      (stepFile envAllOk cfgOne ⟨fsDestTaken, 0, 0, []⟩ ⟨"a1", false⟩).movedCount = 0 ∧
      (stepFile envAllOk cfgOne ⟨fsDestTaken, 0, 0, []⟩ ⟨"a1", false⟩).skippedCount = 0 + 2 :=
  ⟨(organizeFiles_errorPolicy envAllOk ⟨[], []⟩ cfgOne).1 (by decide),
   (organizeFiles_errorPolicy envAllOk fsDestTaken cfgOne).2.1 (by decide),
   (organizeFiles_errorPolicy envAllOk fsDestTaken cfgOne).2.2 ⟨fsDestTaken, 0, 0, []⟩
     ⟨"a1", false⟩ [] [] ⟨"/dest", "a", ""⟩
     ("destination file already exists: " ++ "/dest/a1")
     (by decide) (by decide) (by decide) (by decide) (by decide)⟩

/-! ## C9: the tallies versus the number of non-directory entries -/

/-- C9 (evidence of the code bug): on a dump directory with exactly one
non-directory entry `a1`, matching a rule whose relocation fails because
the destination is occupied, the pass tallies `movedCount = 0` and
`skippedCount = 2`: the failed relocation increments `skippedCount` inside
the rule loop and then, since the Go `moved` flag is still false, the
`No match found` branch increments it again.  So
`movedCount + skippedCount = 2` differs from the `1` non-directory entry
listed, contradicting the claim (and the code's own log message, which
reports `No match found` for a file that did match a rule). -/
theorem organizeFiles_doubleCount :
    passCounts envAllOk fsDestTaken cfgOne = (0, 2) ∧
      ((fsDestTaken.readDir "/dump").getD []).countP (fun e => !e.isDir) = 1 := by
  decide

/-! ## C5: what an organize run returns to its caller -/

/-- Counterexample to C5: two runs over `cfgOne` whose tallies differ —
`(1, 0)` moved on `fsMoveOne` versus `(0, 1)` skipped on `fsNoMatch` —
return the same bare `nil` (`Except.ok ()`) to the caller, so the return
value of `organizeFiles` cannot be the `OrganizeOutcome` aggregate: the Go
function returns only `error`, and the counts are written to the log. -/
theorem organizeFiles_return_counterexample :
    (organizeFiles envAllOk fsMoveOne cfgOne).2.2 = Except.ok () ∧
      (organizeFiles envAllOk fsNoMatch cfgOne).2.2 = Except.ok () ∧
      passCounts envAllOk fsMoveOne cfgOne = (1, 0) ∧
      passCounts envAllOk fsNoMatch cfgOne = (0, 1) := by
  decide

/-- C5 (amended): on every run whose directory listing succeeds,
`organizeFiles` returns `nil` (no aggregate) to its caller, and the
`{ movedCount, skippedCount }` aggregate of the pass is emitted as the
final summary log line instead. -/
theorem organizeFiles_summary (env : SysEnv) (fs : FS) (config : Config)
    (entries : List DirEntry) (h : fs.readDir config.dumpDirectory = some entries) :
    organizeFiles env fs config =
      ((organizePass env config ⟨fs, 0, 0, []⟩ entries).fs,
       (organizePass env config ⟨fs, 0, 0, []⟩ entries).log ++
         [summaryLine (organizePass env config ⟨fs, 0, 0, []⟩ entries).movedCount
            (organizePass env config ⟨fs, 0, 0, []⟩ entries).skippedCount],
       Except.ok ()) := by
  unfold organizeFiles
  rw [h]

/-- Witness for C5 (amended) on the one-file run that moves `a1`. -/
theorem organizeFiles_summary_witness :
    fsMoveOne.readDir "/dump" = some [⟨"a1", false⟩] ∧
      organizeFiles envAllOk fsMoveOne cfgOne =
        ((organizePass envAllOk cfgOne ⟨fsMoveOne, 0, 0, []⟩ [⟨"a1", false⟩]).fs,
         (organizePass envAllOk cfgOne ⟨fsMoveOne, 0, 0, []⟩ [⟨"a1", false⟩]).log ++
           [summaryLine
              (organizePass envAllOk cfgOne ⟨fsMoveOne, 0, 0, []⟩ [⟨"a1", false⟩]).movedCount
              (organizePass envAllOk cfgOne ⟨fsMoveOne, 0, 0, []⟩ [⟨"a1", false⟩]).skippedCount],
         Except.ok ()) :=
  ⟨by decide,
   organizeFiles_summary envAllOk fsMoveOne cfgOne [⟨"a1", false⟩] (by decide)⟩

/-! ## C7: a failed watcher subscription -/

/-- Counterexample to C7: with every earlier startup step succeeding and
`watcher.Add` failing, `main` ends up running (blocked on the signal wait),
not aborted — the subscription failure is only logged. -/
theorem mainStartup_watchAdd_notFatal :
    (mainStartup ⟨true, true, true, true, false⟩).1 = MainPhase.running := by
  decide

/-- C7 (amended): when the startup steps before the subscription succeed,
the process reaches the running state whether or not `watcher.Add`
succeeds; a failed subscription is merely logged and the program continues
without it. -/
theorem mainStartup_watchAdd_logged (env : StartupEnv)
    (h1 : env.logFileOk = true) (h2 : env.configOk = true)
    (h3 : env.dumpDirExists = true) (h4 : env.watcherCreateOk = true) :
    (mainStartup env).1 = MainPhase.running ∧
      (env.watchAddOk = false → (mainStartup env).2 = ["watch add error"]) := by
  unfold mainStartup
  rw [h1, h2, h3, h4]
  cases h5 : env.watchAddOk <;> simp

/-- Witness for C7 (amended) at the concrete startup where only the
subscription fails. -/
theorem mainStartup_watchAdd_logged_witness :
    (mainStartup ⟨true, true, true, true, false⟩).1 = MainPhase.running ∧
      ((⟨true, true, true, true, false⟩ : StartupEnv).watchAddOk = false →
        (mainStartup ⟨true, true, true, true, false⟩).2 = ["watch add error"]) :=
  mainStartup_watchAdd_logged ⟨true, true, true, true, false⟩
    (by decide) (by decide) (by decide) (by decide)

/-! ## C8: debounce collapsing -/

theorem watchLoop_close (delay t k : Nat) (rest : List Nat)
    (h : List.Chain' (fun a b => b < a + delay) (t :: rest)) :
    watchLoop delay (some (t + delay)) k rest = k + 1 := by
  induction rest generalizing t k with
  | nil => rfl
  | cons u rest ih =>
    have hu : u < t + delay := (List.chain'_cons.mp h).1
    have h2 : List.Chain' (fun a b => b < a + delay) (u :: rest) :=
      (List.chain'_cons.mp h).2
    have hnot : ¬ (t + delay ≤ u) := by omega
    simp only [watchLoop]
    rw [if_neg hnot]
    exact ih u k h2

theorem watchLoop_spread (delay t k : Nat) (rest : List Nat)
    (h : List.Chain' (fun a b => a + delay < b) (t :: rest)) :
    watchLoop delay (some (t + delay)) k rest = k + 1 + rest.length := by
  induction rest generalizing t k with
  | nil => rfl
  | cons u rest ih =>
    have hu : t + delay < u := (List.chain'_cons.mp h).1
    have h2 : List.Chain' (fun a b => a + delay < b) (u :: rest) :=
      (List.chain'_cons.mp h).2
    have hle : t + delay ≤ u := le_of_lt hu
    simp only [watchLoop]
    rw [if_pos hle, ih u (k + 1) h2]
    simp only [List.length_cons]
    omega

/-- C8: for a non-empty stream of filesystem events, if each event arrives
less than the debounce delay (5 time units) after the previous one, the
watch loop runs exactly one organize pass (every event cancels the pending
timer and re-arms it, and only the final timer fires); if consecutive
events are separated by more than the delay, every armed timer fires before
the next event, so the loop runs exactly one pass per event. -/
theorem debounce_collapsing (events : List Nat) (hne : events ≠ []) :
    (List.Chain' (fun a b => b < a + debounceDelay) events →
      watchRun debounceDelay events = 1) ∧
    (List.Chain' (fun a b => a + debounceDelay < b) events →
      watchRun debounceDelay events = events.length) := by
  match events, hne with
  | t :: rest, _ =>
    constructor
    · intro h
      show watchLoop debounceDelay none 0 (t :: rest) = 1
      simp only [watchLoop]
      exact watchLoop_close debounceDelay t 0 rest h
    · intro h
      show watchLoop debounceDelay none 0 (t :: rest) = (t :: rest).length
      simp only [watchLoop]
      rw [watchLoop_spread debounceDelay t 0 rest h]
      simp only [List.length_cons]
      omega

/-- Witness for C8: three events in one burst at times 0, 1, 2 produce one
pass; three events at times 0, 6, 12 (gaps of 6 > 5) produce three. -/
theorem debounce_collapsing_witness :
    watchRun debounceDelay [0, 1, 2] = 1 ∧
      watchRun debounceDelay [0, 6, 12] = [(0 : Nat), 6, 12].length :=
  ⟨(debounce_collapsing [0, 1, 2] (by decide)).1
     (by norm_num [List.chain'_cons, debounceDelay]),
   (debounce_collapsing [0, 6, 12] (by decide)).2
     (by norm_num [List.chain'_cons, debounceDelay])⟩
